import Mathlib

/-! # lms-ultralight: the touch list widget (`src/touch.js`)

A shallow embedding of the selection manager of `TouchList` and of the
gesture/drag manager created by `makeSlider`, followed by the properties
proved about them.

Conventions of the embedding:

* An item index is a JavaScript number or `null` (what `getIndex` returns
  when the pointer is over no item).  Numbers are modelled as `Int`, `null`
  as `none`; doubles are exact on the integers the widget handles.
* An Immutable.js `Set` is a `Finset` (membership and `equals` are by value),
  an Immutable.js `List` is a `List`.
* `this.state` and `this.props` are explicit arguments; callbacks supplied by
  the owner are recorded in a log of `Call`s instead of being run.
-/

namespace TouchList

/-- An item index: `some n` is the number `n`, `none` is `null`. -/
abbrev Index := Option Int

/-- The selection modifiers exported by `touch.js`: `SINGLE = "single"` and
`TO_LAST = "to last"`.  A click without modifier passes `null`, modelled as
`none : Option Modifier`. -/
inductive Modifier where
  | SINGLE
  | TO_LAST
  deriving DecidableEq, Repr

/-- An item of `props.items`; only value equality of items is used. -/
abbrev Item := String

/-- The part of `this.state` of a `TouchList`: `dropTypes` is the object built
by `_.zipObject(props.dropTypes)`, of which only the set of keys matters. -/
structure State where
  dropTypes : Finset String
  selection : Finset Index
  lastSelected : List Index
  deriving DecidableEq

/-- The props of a `TouchList` that the code reads.  A callback prop is
recorded by whether it is supplied; `onLongTouch` also by what it returns. -/
structure Props where
  items : Option (List Item)
  selection : Option (Finset Index)
  dataType : Option String
  dropTypes : Option (List String)
  onTap : Bool
  onDrop : Bool
  onLongTouch : Option (Option Item → Index → Bool)
  onMoveItems : Bool
  onSelectionChanged : Bool

/-- An invocation of a callback prop, or of an effect on an event or item. -/
inductive Call where
  | onSelectionChanged (selection : Finset Index) (isTouch : Bool)
  | onTap (index : Index)
  | onMoveItems (indexSet : Finset Index) (toIndex : Int)
  | onDrop (data : Option String) (dataType : Option String) (index : Int)
  | preventDefault
  | clearDropIndicator (index : Int)
  deriving DecidableEq

/-- A `TouchList` instance: its unique id (`_.uniqueId("touch-list-")`), its
current props and its current state. -/
structure Component where
  id : String
  props : Props
  state : State

/-- An object passed to `setState`: the keys present are merged into the
state. -/
structure Patch where
  dropTypes : Option (Finset String) := none
  selection : Option (Finset Index) := none
  lastSelected : Option (List Index) := none

/-- React merges a state object into the current state. -/
def State.setState (s : State) (p : Patch) : State :=
  { dropTypes := p.dropTypes.getD s.dropTypes
    selection := p.selection.getD s.selection
    lastSelected := p.lastSelected.getD s.lastSelected }

/-- Immutable.js `Range(start, end, step)`: `step` is made positive and then
negated when `end < start`; the size is `ceil((end - start) / step)`, never
negative, and the `k`-th element is `start + k * step`.  The call site passes
`step = ±1`. -/
def Range (start stop step : Int) : List Int :=
  let step := if stop < start then -(step.natAbs : Int) else (step.natAbs : Int)
  let size := ((stop - start).natAbs + step.natAbs - 1) / step.natAbs
  (List.range size).map (fun (k : Nat) => start + (k : Int) * step)

/-- The `lastSelected.last() || 0` of the range select: the final entry, and
`0` when there is none or it is falsy (`null`, or `0` itself). -/
def lastOr0 (lastSelected : List Index) : Int :=
  match lastSelected.getLast? with
  | some (some n) => n
  | _ => 0

/-- The updater that `onItemSelected` passes to `selectionChanged`:
from `{selection, lastSelected}` to the new pair. -/
def onItemSelected.update (index : Index) (modifier : Option Modifier)
    (state : State) : State :=
  match modifier with
  | none => { state with selection := {index}, lastSelected := [index] }
  | some Modifier.SINGLE =>
    if index ∉ state.selection then
      { state with selection := insert index state.selection
                   lastSelected := state.lastSelected ++ [index] }
    else
      { state with selection := state.selection.erase index
                   lastSelected :=
                     if state.lastSelected.getLast? = some index
                     then state.lastSelected.dropLast else state.lastSelected }
  | some Modifier.TO_LAST =>
    let anchor := lastOr0 state.lastSelected
    -- `from <= index` and `index + step` coerce a `null` index to `0`
    let idx : Int := index.getD 0
    let step : Int := if anchor ≤ idx then 1 else -1
    { state with selection :=
                   state.selection ∪ ((Range anchor (idx + step) step).map some).toFinset
                 lastSelected := state.lastSelected ++ [index] }

/-- The branch `_.isFunction(selection)` of `selectionChanged`: the updater
is run by `setState` on the current state and props; the owner is notified
when a callback is supplied and the new selection is not equal to
`props.selection` (`equals(undefined)` is false). -/
def selectionChangedFn (props : Props) (state : State)
    (selection : State → State) (isTouch : Bool) : State × List Call :=
  let func := props.onSelectionChanged
  let newState := selection state
  if func && !(decide (some newState.selection = props.selection)) then
    (newState, [Call.onSelectionChanged newState.selection isTouch])
  else (newState, [])

/-- The branch of `selectionChanged` taken for a `Set` and a `List`: the
state objects handed to `setState` and the callbacks invoked. -/
def selectionChanged (self : Component) (selection : Finset Index)
    (lastSelected : List Index) (isTouch : Bool) : List Patch × List Call :=
  if selection ≠ self.state.selection then
    let func := self.props.onSelectionChanged
    ([{ selection := some selection, lastSelected := some lastSelected }],
      if func && !(decide (some selection = self.props.selection)) then
        [Call.onSelectionChanged selection isTouch] else [])
  else if lastSelected ≠ self.state.lastSelected then
    ([{ lastSelected := some lastSelected }], [])
  else ([], [])

/-- `onItemSelected(index, modifier, isTouch=false)`. -/
def onItemSelected (self : Component) (index : Index) (modifier : Option Modifier)
    (isTouch : Bool) : State × List Call :=
  selectionChangedFn self.props self.state (onItemSelected.update index modifier) isTouch

/-- `toggleSelection(index, isTouch=false)`. -/
def toggleSelection (self : Component) (index : Index) (isTouch : Bool) :
    State × List Call :=
  onItemSelected self index (some Modifier.SINGLE) isTouch

/-- `clearSelection()`: the state once the queued state objects are merged,
and the callbacks invoked. -/
def clearSelection (self : Component) : State × List Call :=
  let r := selectionChanged self ∅ [] false
  (r.1.foldl State.setState self.state, r.2)

/-- `componentWillReceiveProps(props)`: `self.props` are the props still in
force, `props` the incoming ones.  Every `setState` here is queued, so
`this.state` is the state before the call throughout; the result is the state
once the queue is merged in order.  Fails when `props.items` is missing. -/
def componentWillReceiveProps (self : Component) (props : Props) :
    Except String (State × List Call) :=
  if props.items.isNone then
    Except.error "TouchList.props.items must be an indexed collection"
  else
    let dropTypes : Finset String := (props.dropTypes.getD []).toFinset
    let u1 : List Patch :=
      if dropTypes ≠ self.state.dropTypes then [{ dropTypes := some dropTypes }] else []
    let r : List Patch × List Call :=
      if self.props.items.isNone ∨ self.props.items ≠ props.items then
        selectionChanged self ∅ [] false
      else ([], [])
    let u3 : List Patch :=
      match props.selection with
      | some sel =>
        if sel ≠ self.state.selection then
          [{ selection := some sel
             lastSelected := some (self.state.lastSelected.filter (fun index => index ∈ sel)) }]
        else []
      | none => []
    Except.ok ((u1 ++ r.1 ++ u3).foldl State.setState self.state, r.2)

/-! ## The gesture/drag manager (`makeSlider`) -/

/-- A DOM element as the slider reads it: the parsed `data-touchlist-item-index`
attribute when present, its classes, and its vertical box. -/
structure Node where
  touchlistItemIndex : Option Int
  classList : List String
  offsetTop : ℚ
  offsetHeight : ℚ
  deriving DecidableEq

/-- An element together with its chain of ancestors (`parentNode`), the
element first; `[]` is `null`.  The final node has no parent. -/
abbrev Element := List Node

/-- A native drag event or a touch event.  `dataTransfer` is the store of
(type, data) pairs of a drag event and is absent on a touch event; `clientY`
is `undefined` on a touch event; the three `touchlist…` fields are
`event.target.dataset`; `touches` holds `clientX` and `clientY` of each touch
point of a touch event. -/
structure Event where
  dataTransfer : Option (List (String × String))
  clientY : Option ℚ
  touchlistId : Option String
  touchlistDragType : Option String
  touchlistDragData : Option String
  currentTarget : Node
  touches : List (ℚ × ℚ) := []
  timeStamp : ℚ := 0
  deriving DecidableEq

/-- A position object `{x, y, time}`; `ref` is the identity of the object,
which is what `startPosition === latestPosition` compares. -/
structure Position where
  ref : Nat
  x : ℚ
  y : ℚ
  time : ℚ
  deriving DecidableEq

/-- The variables closed over by the functions of `makeSlider`.  `items` holds
the indexes under which an item is registered; `holdTimer` holds the `index`
and `isSelected` captured by the pending long-press timer. -/
structure Slider where
  items : List Int
  holdTimer : Option (Index × Bool)
  isHolding : Bool
  isTouchDrag : Bool
  startPosition : Option Position
  latestPosition : Option Position
  startIndex : Option Int
  latestIndex : Option Int

/-- What `getDataTypes` can return: an array whose entries are strings or
`undefined`, or a number. -/
inductive DataTypes where
  | array (types : List (Option String))
  | number (n : Nat)
  deriving DecidableEq

/-- JavaScript truthiness of a string or `undefined`: only a non-empty string
is truthy. -/
def truthy : Option String → Bool
  | some s => s != ""
  | none => false

/-- The property key a value is converted to by `hasOwnProperty`. -/
def propertyKey : Option String → String
  | some s => s
  | none => "undefined"

/-- `getAllowedDropType(possibleTypes)`: `_.find` returns the first entry that
is a key of `state.dropTypes`, and `undefined` when there is none or when
`possibleTypes` is not a collection. -/
def getAllowedDropType (self : Component) (possibleTypes : DataTypes) : Option String :=
  match possibleTypes with
  | DataTypes.array types =>
    (types.find? (fun value => decide (propertyKey value ∈ self.state.dropTypes))).join
  | DataTypes.number _ => none

/-- `getIndex(el)`: walk up from `el` while the node has a parent; the first
item-index marker wins, and the walk stops at the element of this list. -/
def getIndex (self : Component) : Element → Option Int
  | [] => none
  | [_] => none
  | el :: parent :: rest =>
    match el.touchlistItemIndex with
    | some n => some n
    | none =>
      if self.id ∈ el.classList then none else getIndex self (parent :: rest)

/-- `hasClass(el, className)`: some node of the chain has the class. -/
def hasClass (el : Element) (className : String) : Bool :=
  el.any (fun n => decide (className ∈ n.classList))

/-- `getDataTypes(event)`: the types of the transfer store for a drag event;
for a touch event the array `[dataset.touchlistId]`, except that with a
drag-type attribute the function returns the value of `types.push(...)`, which
is the new length of the array. -/
def getDataTypes (event : Event) : DataTypes :=
  match event.dataTransfer with
  | some store => DataTypes.array (store.map (fun kv => some kv.1))
  | none =>
    let types := [event.touchlistId]
    if truthy event.touchlistDragType then
      DataTypes.number (types ++ [event.touchlistDragType]).length
    else DataTypes.array types

/-- `getData(event, dataTypes)`: the payload (kept as text) and the drop
type. -/
def getData (self : Component) (event : Event) (dataTypes : DataTypes) :
    Option String × Option String :=
  let dropType := getAllowedDropType self dataTypes
  let data : Option String :=
    match event.dataTransfer with
    | some store => some (((store.find? (fun kv => kv.1 == propertyKey dropType)).map Prod.snd).getD "")
    | none => if dropType = event.touchlistDragType then event.touchlistDragData else none
  (data, dropType)

/-- `getMoveIndex(event, dataTypes)`: `startIndex` for a move within this
list, else `null`.  A number has no `indexOf`, so the call raises a
`TypeError`. -/
def getMoveIndex (self : Component) (sl : Slider) (dataTypes : DataTypes) :
    Except String (Option Int) :=
  if self.props.onMoveItems then
    match dataTypes with
    | DataTypes.array types =>
      if some self.id ∈ types then Except.ok sl.startIndex else Except.ok none
    | DataTypes.number _ => Except.error "TypeError: dataTypes.indexOf is not a function"
  else Except.ok none

/-- `getDropIndex(event, index, target=event.currentTarget)`.  With
`clientY` undefined `a` is `NaN` and `a > b` is false. -/
def getDropIndex (event : Event) (index : Int) (target : Option Node) : Int :=
  let target := target.getD event.currentTarget
  match event.clientY with
  | none => index
  | some clientY =>
    let a := clientY - target.offsetTop
    let b := target.offsetHeight / 2
    if a > b then index + 1 else index

/-- `allowedDropIndex(event, index, target=event.currentTarget)`. -/
def allowedDropIndex (self : Component) (sl : Slider) (event : Event) (index : Int)
    (target : Option Node) : Except String Int :=
  let dataTypes := getDataTypes event
  match getMoveIndex self sl dataTypes with
  | Except.error e => Except.error e
  | Except.ok moveIndex =>
    let dropIndex := getDropIndex event index target
    match moveIndex with
    | none => Except.ok (if truthy (getAllowedDropType self dataTypes) then dropIndex else -1)
    | some moveIndex =>
      let sel := self.state.selection
      if some moveIndex ∈ sel then
        if ¬ (some dropIndex ∈ sel ∨ some (dropIndex - 1) ∈ sel) then Except.ok dropIndex
        else Except.ok (-1)
      else if dropIndex ≠ moveIndex ∧ dropIndex ≠ moveIndex + 1 then Except.ok dropIndex
      else Except.ok (-1)

/-- `dragOver(event, index, target)`: the allowed drop index, with the default
action prevented when a drop is allowed. -/
def dragOver (self : Component) (sl : Slider) (event : Event) (index : Int)
    (target : Option Node) : Except String (Int × List Call) :=
  match allowedDropIndex self sl event index target with
  | Except.error e => Except.error e
  | Except.ok dropIndex =>
    Except.ok (dropIndex, if dropIndex ≥ 0 then [Call.preventDefault] else [])

/-- `drop(event, index)`: the callbacks invoked. -/
def drop (self : Component) (sl : Slider) (event : Event) (index : Int) :
    Except String (List Call) :=
  let dropIndex := getDropIndex event index none
  if dropIndex ≥ 0 then
    let dataTypes := getDataTypes event
    match getMoveIndex self sl dataTypes with
    | Except.error e => Except.error e
    | Except.ok (some moveIndex) =>
      let selection :=
        if some moveIndex ∈ self.state.selection then self.state.selection
        else {some moveIndex}
      Except.ok [Call.onMoveItems selection dropIndex]
    | Except.ok none =>
      if self.props.onDrop then
        let r := getData self event dataTypes
        Except.ok [Call.onDrop r.1 r.2 dropIndex]
      else Except.ok []
  else Except.ok []

/-- `TouchList.onTap(index, event)`. -/
def onTap (self : Component) (index : Index) : List Call :=
  if self.props.onTap then [Call.onTap index] else []

/-- `TouchListItem.onDrop(event, index)`: clear the drop indicator of the
item, then hand the event to the slider. -/
def TouchListItem.onDrop (self : Component) (sl : Slider) (event : Event) (index : Int) :
    Except String (List Call) :=
  match drop self sl event index with
  | Except.error e => Except.error e
  | Except.ok calls => Except.ok (Call.clearDropIndicator index :: calls)

/-- `touchEnd(event)`; `document` is `document.elementFromPoint`.  Returns the
state of the list, the variables of the slider and the callbacks invoked.
The three attributes are deleted from `event.target.dataset` at the end, after
their last use; `cancelHold()` clears the pending timer. -/
def touchEnd (self : Component) (sl : Slider) (document : Position → Element)
    (event : Event) : Except String (State × Slider × List Call) :=
  match sl.latestPosition with
  | none => Except.ok (self.state, sl, [])
  | some latestPosition =>
    let target := document latestPosition
    let handled : Except String (State × List Call) :=
      if !sl.isHolding && decide (sl.startPosition = sl.latestPosition) then
        let index := getIndex self target
        if hasClass target "tap-zone" then
          Except.ok (self.state, onTap self index)
        else
          let r := toggleSelection self index true
          Except.ok (r.1, Call.preventDefault :: r.2)
      else if self.state.selection.card ≠ 0 then
        match getIndex self target with
        | none => Except.ok (self.state, [])
        | some index =>
          match allowedDropIndex self sl event index target.head? with
          | Except.error e => Except.error e
          | Except.ok toIndex =>
            if toIndex ≥ 0 then
              match drop self sl event index with
              | Except.error e => Except.error e
              | Except.ok calls => Except.ok (self.state, Call.preventDefault :: calls)
            else Except.ok (self.state, [])
      else Except.ok (self.state, [])
    match handled with
    | Except.error e => Except.error e
    | Except.ok (state, calls) =>
      let registered : Option Int := sl.latestIndex.filter (fun i => decide (i ∈ sl.items))
      Except.ok (state,
        { sl with latestIndex := if registered.isSome then none else sl.latestIndex
                  isTouchDrag := false
                  holdTimer := none },
        calls ++ (registered.toList.map Call.clearDropIndicator))

/-! ## Long press: `touchStart`, the hold timer and `onLongTouch` -/

/-- Immutable.js `wrapIndex`: `null` is no index (`NaN`), a negative number
counts from the end. -/
def wrapIndex (size : Nat) : Index → Option Int
  | none => none
  | some n => some (if n < 0 then (size : Int) + n else n)

/-- Immutable.js `List.has(index)`. -/
def itemsHas (items : List Item) (index : Index) : Bool :=
  match wrapIndex items.length index with
  | some i => decide (0 ≤ i ∧ i < items.length)
  | none => false

/-- Immutable.js `List.get(index)`, `undefined` when out of range. -/
def itemsGet (items : List Item) (index : Index) : Option Item :=
  match wrapIndex items.length index with
  | some i => if 0 ≤ i then items.get? i.toNat else none
  | none => none

/-- `getDragData(index)`: the selected items in ascending order of index when
`index` is selected, the item itself when it is not, nothing when there is no
such item.  Raises when `props.items` is missing or a selected index has no
item (`toObject` of `undefined`). -/
def getDragData (self : Component) (index : Index) : Except String (List Item) :=
  match self.props.items with
  | none => Except.error "TypeError: items is undefined"
  | some items =>
    if itemsHas items index then
      if index ∈ self.state.selection then
        if ∀ i ∈ self.state.selection, (itemsGet items i).isSome then
          Except.ok ((self.state.selection.eraseNone.sort (· ≤ ·)).filterMap
            (fun i => itemsGet items (some i)))
        else Except.error "TypeError: items.get(...) is undefined"
      else Except.ok (itemsGet items index).toList
    else Except.ok []

/-- `JSON.stringify` of the drag data, an item being kept as its text. -/
def stringify (data : List Item) : String :=
  "[" ++ ",".intercalate data ++ "]"

/-- The identity of an object created now: distinct from the position
objects the slider still holds. -/
def newRef (sl : Slider) : Nat :=
  max ((sl.startPosition.map (fun p => p.ref)).getD 0)
    ((sl.latestPosition.map (fun p => p.ref)).getD 0) + 1

/-- `TouchList.onLongTouch(index)`: without a callback the selection of the
item is toggled; with one, it is toggled when the callback returns `true`. -/
def onLongTouch (self : Component) (index : Index) : Except String (State × List Call) :=
  match self.props.onLongTouch with
  | some callback =>
    match self.props.items with
    | none => Except.error "TypeError: this.props.items is undefined"
    | some items =>
      if callback (itemsGet items index) index then
        Except.ok (toggleSelection self index true)
      else Except.ok (self.state, [])
  | none => Except.ok (toggleSelection self index true)

/-- `touchStart(event)`: returns the variables of the slider and the event
with the attributes written to `event.target.dataset`.  More than one touch
point is ignored. -/
def touchStart (self : Component) (sl : Slider) (document : Position → Element)
    (event : Event) : Except String (Slider × Event) :=
  if event.touches.length > 1 then Except.ok (sl, event)
  else
    match event.touches.head? with
    | none => Except.error "TypeError: event.touches[0] is undefined"
    | some touch =>
      let pos : Position :=
        { ref := newRef sl, x := touch.1, y := touch.2, time := event.timeStamp }
      let target := document pos
      let index : Index := getIndex self target
      let isSelected : Bool := decide (index ∈ self.state.selection)
      let event1 : Event :=
        if self.props.onMoveItems then { event with touchlistId := some self.id } else event
      let startIndex := if self.props.onMoveItems then index else sl.startIndex
      let written : Except String Event :=
        if truthy self.props.dataType then
          match getDragData self index with
          | Except.error e => Except.error e
          | Except.ok data =>
            Except.ok { event1 with touchlistDragType := self.props.dataType
                                    touchlistDragData := some (stringify data) }
        else Except.ok event1
      match written with
      | Except.error e => Except.error e
      | Except.ok event2 =>
        Except.ok
          ({ sl with startPosition := some pos
                     latestPosition := some pos
                     startIndex := startIndex
                     isHolding := false
                     isTouchDrag := hasClass target "drag-handle"
                     holdTimer := some (index, isSelected) },
           event2)

/-- The callback of the hold timer armed by `touchStart`, run when the timer
fires; `index` and `isSelected` are the values captured at touch start, the
other variables are read now.  The timer is no longer pending afterwards. -/
def holdTimerFired (self : Component) (sl : Slider) :
    Except String (State × Slider × List Call) :=
  match sl.holdTimer with
  | none => Except.ok (self.state, sl, [])
  | some (index, isSelected) =>
    if decide (sl.startPosition = sl.latestPosition) && !sl.isTouchDrag then
      if isSelected && decide (self.state.selection.card ≠ 0) then
        let r := clearSelection self
        Except.ok (r.1,
          { sl with holdTimer := none, isHolding := false, latestPosition := none }, r.2)
      else
        match onLongTouch self index with
        | Except.error e => Except.error e
        | Except.ok r =>
          Except.ok (r.1, { sl with holdTimer := none, isHolding := true, isTouchDrag := true },
            r.2)
    else Except.ok (self.state, { sl with holdTimer := none, isHolding := true }, [])

/-! ## Notions used to state the properties -/

deriving instance DecidableEq for Except

/-- The consistency invariant of the selection state: every entry of
`lastSelected` is a member of `selection`. -/
def Inv (s : State) : Prop := ∀ i ∈ s.lastSelected, i ∈ s.selection

instance (s : State) : Decidable (Inv s) := by unfold Inv; infer_instance

/-- The state after a run of `toggleSelection` calls, one per index of the
list, in order. -/
def toggleAll (self : Component) : List Index → State
  | [] => self.state
  | i :: rest => toggleAll { self with state := (toggleSelection self i true).1 } rest

/-- Along a run of `toggleSelection` calls, whenever a selected index is
toggled off it occurs in `lastSelected` at most as the final entry. -/
def deselectsFinal (self : Component) : List Index → Prop
  | [] => True
  | i :: rest =>
    (i ∈ self.state.selection → i ∉ self.state.lastSelected.dropLast) ∧
    deselectsFinal { self with state := (toggleSelection self i true).1 } rest

instance deselectsFinal.instDecidable :
    (self : Component) → (run : List Index) → Decidable (deselectsFinal self run)
  | _, [] => isTrue trivial
  | self, i :: rest =>
    have := deselectsFinal.instDecidable
      { self with state := (toggleSelection self i true).1 } rest
    inferInstanceAs (Decidable (_ ∧ _))

/-- An uncontrolled list of four items (no `selection` prop) whose owner
listens to selection changes and allows items to be moved. -/
def plainProps : Props :=
  { items := some ["A", "B", "C", "D"], selection := none, dataType := none,
    dropTypes := none, onTap := false, onDrop := false, onLongTouch := none,
    onMoveItems := true, onSelectionChanged := true }

/-- The list `touch-list-1` with props `plainProps`, holding the given
selection and last-selected sequence. -/
def plainList (selection : Finset Index) (lastSelected : List Index) : Component :=
  { id := "touch-list-1", props := plainProps,
    state := { dropTypes := ∅, selection := selection, lastSelected := lastSelected } }

/-- The box of a list item ten units high at the top of the page, carrying
the item-index marker `index`. -/
def itemNode (index : Int) : Node :=
  { touchlistItemIndex := some index, classList := ["touchlist-item"],
    offsetTop := 0, offsetHeight := 10 }

/-- The element of the list with the given id. -/
def listNode (id : String) : Node :=
  { touchlistItemIndex := none, classList := ["touchlist", id],
    offsetTop := 0, offsetHeight := 40 }

/-- The root of the document: no marker, no class. -/
def rootNode : Node :=
  { touchlistItemIndex := none, classList := [], offsetTop := 0, offsetHeight := 0 }

/-- A touch event delivered to the handlers of the list `id`, whose target
carries the attributes `touchlistId` and `touchlistDragType` (and the drag
data) as `touchStart` wrote them.  A touch event has no `dataTransfer` and no
`clientY`. -/
def touchEvent (id : String) (touchlistId touchlistDragType : Option String) : Event :=
  { dataTransfer := none, clientY := none, touchlistId := touchlistId,
    touchlistDragType := touchlistDragType,
    touchlistDragData := touchlistDragType.map (fun _ => "[]"),
    currentTarget := listNode id }

/-- A native drag event over the item `index` with the pointer at `clientY`,
carrying the given store of (type, data) pairs. -/
def dragEvent (store : List (String × String)) (clientY : ℚ) (index : Int) : Event :=
  { dataTransfer := some store, clientY := some clientY, touchlistId := none,
    touchlistDragType := none, touchlistDragData := none, currentTarget := itemNode index }

/-- A slider in the middle of a drag that started on the item `startIndex`:
the pointer has moved since touch start. -/
def draggingSlider (startIndex : Int) : Slider :=
  { items := [0, 1, 2, 3], holdTimer := none, isHolding := false, isTouchDrag := true,
    startPosition := some { ref := 0, x := 5, y := 15, time := 0 },
    latestPosition := some { ref := 1, x := 5, y := 25, time := 400 },
    startIndex := some startIndex, latestIndex := none }

/-- A list that exports and accepts items of type `"track"` and does not allow
moving its own items. -/
def trackList (selection : Finset Index) : Component :=
  { id := "touch-list-2",
    props := { items := some ["A", "B", "C", "D"], selection := none, dataType := some "track",
               dropTypes := some ["track"], onTap := false, onDrop := true,
               onLongTouch := none, onMoveItems := false, onSelectionChanged := false },
    state := { dropTypes := {"track"}, selection := selection, lastSelected := [] } }

/-- A slider outside any touch sequence, after `dragStart` on the item
`startIndex` of a list whose items may be moved. -/
def mouseSlider (startIndex : Int) : Slider :=
  { items := [0, 1, 2, 3], holdTimer := none, isHolding := false, isTouchDrag := false,
    startPosition := none, latestPosition := none,
    startIndex := some startIndex, latestIndex := none }

/-- A page on which every point lies over the item `index` of the list
`id`. -/
def pageOver (id : String) (index : Int) : Position → Element :=
  fun _ => [itemNode index, listNode id, rootNode]

/-- A list whose items may be moved and are exported as type `"track"`. -/
def movableTrackList (selection : Finset Index) : Component :=
  { id := "touch-list-3",
    props := { items := some ["A", "B", "C", "D"], selection := none, dataType := some "track",
               dropTypes := none, onTap := false, onDrop := false,
               onLongTouch := none, onMoveItems := true, onSelectionChanged := false },
    state := { dropTypes := ∅, selection := selection, lastSelected := [] } }

/-- A slider before any touch sequence or drag. -/
def idleSlider : Slider :=
  { items := [0, 1, 2, 3], holdTimer := none, isHolding := false, isTouchDrag := false,
    startPosition := none, latestPosition := none, startIndex := none, latestIndex := none }

/-- A page on which every point lies over the element of the list `id` itself,
outside any item. -/
def pageOverList (id : String) : Position → Element :=
  fun _ => [listNode id, rootNode]

/-- A page on which every point lies over a tap zone placed in the list `id`
outside any item. -/
def pageOverTapZone (id : String) : Position → Element :=
  fun _ => [{ touchlistItemIndex := none, classList := ["tap-zone"], offsetTop := 0,
              offsetHeight := 10 }, listNode id, rootNode]

/-- A page on which every point lies over the drag handle of the item `index`
of the list `id`. -/
def pageOverHandle (id : String) (index : Int) : Position → Element :=
  fun _ => [{ touchlistItemIndex := none, classList := ["drag-handle"], offsetTop := 0,
              offsetHeight := 10 }, itemNode index, listNode id, rootNode]

/-- The touch event of one finger put down at `(5, 15)` on the list `id`. -/
def fingerDown (id : String) : Event :=
  { touchEvent id none none with touches := [(5, 15)] }

/-- The slider of `idleSlider` once `touchStart` has run for a finger put down
at `(5, 15)` over the item or place `index`, on a list whose items may be
moved. -/
def pressedSlider (index : Index) (isSelected onHandle : Bool) : Slider :=
  { items := [0, 1, 2, 3], holdTimer := some (index, isSelected), isHolding := false,
    isTouchDrag := onHandle,
    startPosition := some { ref := 1, x := 5, y := 15, time := 0 },
    latestPosition := some { ref := 1, x := 5, y := 15, time := 0 },
    startIndex := index, latestIndex := none }

/-- A tap: `touchStart`, then `touchEnd` on the same target with no movement
and before the hold timer fires. -/
def tap (self : Component) (sl : Slider) (document : Position → Element) (event : Event) :
    Except String (State × Slider × List Call) :=
  match touchStart self sl document event with
  | Except.error e => Except.error e
  | Except.ok r => touchEnd self r.1 document r.2

/-- The list `touch-list-1` of `plainList` with an `onTap` callback. -/
def tappableList (selection : Finset Index) (lastSelected : List Index) : Component :=
  { plainList selection lastSelected with props := { plainProps with onTap := true } }

deriving instance DecidableEq for Slider

/-- The list `touch-list-1` of `plainList` with an `onLongTouch` callback that
always answers `answer`. -/
def answeringList (answer : Bool) (selection : Finset Index) (lastSelected : List Index) :
    Component :=
  { plainList selection lastSelected with
    props := { plainProps with onLongTouch := some (fun _ _ => answer) } }

/-- A list whose owner controls the selection: it passes `propsSelection` as
the `selection` prop and listens to selection changes. -/
def controlledList (propsSelection selection : Finset Index) (lastSelected : List Index) :
    Component :=
  { plainList selection lastSelected with
    props := { plainProps with selection := some propsSelection } }

/-- Incoming props with the items of `plainProps` reordered and the given
`selection` prop. -/
def reorderedProps (selection : Option (Finset Index)) : Props :=
  { plainProps with items := some ["B", "A", "C", "D"], selection := selection }

end TouchList

/-! # The action registry (`src/store.js`)

`allActions` is a module variable holding a plain object used as a map from
action names to actors, and `null` once `makeStore` has run.  It is threaded
through the functions as an argument and a result.  The module is strict
code. -/

namespace Store

/-- A plain object whose values are actors, as the code can observe it: the
names of its own properties, and whether an assignment to `__proto__` has made
an actor (a function) its prototype in place of `Object.prototype`. -/
structure Obj where
  own : Finset String
  protoIsActor : Bool
  deriving DecidableEq

/-- The value of `allActions`: the object, or `none` for `null`. -/
abbrev Registry := Option Obj

/-- The object literal `{}`. -/
def Obj.empty : Obj := { own := ∅, protoIsActor := false }

/-- A value passed as an action name: a string, or a value whose `typeof` is
something else. -/
inductive Name where
  | string (s : String)
  | other (typeOf : String)
  deriving DecidableEq

/-- The object returned by an actor. -/
structure Action (α : Type) where
  type : String
  payload : List α
  args : List α
  deriving DecidableEq

/-- An actor, the function made by `makeActor`; `key` is the action name. -/
structure Actor where
  key : String
  deriving DecidableEq

/-- Calling an actor: `(...args) => ({type: name, payload: args, args: args})`. -/
def Actor.call {α : Type} (actor : Actor) (args : List α) : Action α :=
  { type := actor.key, payload := args, args := args }

/-- The truth value of `obj.hasOwnProperty(name)`.  The method is looked up on
the object: an own property `hasOwnProperty` holds an actor, which is called
instead and returns an action object, a truthy value; otherwise the method of
`Object.prototype` answers whether `name` is an own property. -/
def Obj.hasOwnProperty (obj : Obj) (name : String) : Bool :=
  if "hasOwnProperty" ∈ obj.own then true else decide (name ∈ obj.own)

/-- The property names an object inherits from a function without being able
to assign them: `length` and `name` are read-only, and `arguments` and `caller`
are accessors of `Function.prototype` whose setter throws. -/
def unassignableUnderFunction : List String := ["length", "name", "arguments", "caller"]

/-- The assignment `obj[name] = actor` in strict code.  `__proto__` is the
accessor of `Object.prototype`: the actor becomes the prototype and no own
property is created.  Under an actor as prototype the names of
`unassignableUnderFunction` cannot be assigned and the assignment raises.  Any
other name becomes an own property. -/
def Obj.assign (obj : Obj) (name : String) : Except String Obj :=
  if name = "__proto__" then Except.ok { obj with protoIsActor := true }
  else if obj.protoIsActor && decide (name ∈ unassignableUnderFunction) then
    Except.error ("TypeError: Cannot assign to property " ++ name)
  else Except.ok { obj with own := insert name obj.own }

/-- `makeActor(name)`: the actor and the value of `allActions` afterwards, or
the error raised. -/
def makeActor (allActions : Registry) (name : Name) : Except String (Actor × Registry) :=
  match name with
  | Name.other typeOf =>
    Except.error ("action name must be a string (got " ++ typeOf ++ ")")
  | Name.string name =>
    match allActions with
    | none => Except.error ("cannot create action '" ++ name ++ "' after makeStore")
    | some obj =>
      if obj.hasOwnProperty name then
        Except.error ("cannot create duplicate action: " ++ name)
      else
        match obj.assign name with
        | Except.error e => Except.error e
        | Except.ok obj' => Except.ok ({ key := name }, some obj')

/-- `makeStore(reducer, initialState)`: the store is created and the registry
is closed. -/
def makeStore (_allActions : Registry) : Registry := none

end Store

namespace TouchList

/-! ## Properties of the selection manager -/

theorem mem_Range_up (a b x : Int) (h : a ≤ b) : x ∈ Range a (b + 1) 1 ↔ a ≤ x ∧ x ≤ b := by
  have h1 : ¬ (b + 1 < a) := by omega
  have hr : Range a (b + 1) 1 =
      (List.range (b + 1 - a).natAbs).map (fun (k : Nat) => a + (k : Int) * 1) := by
    simp [Range, h1]
  rw [hr, List.mem_map]
  constructor
  · rintro ⟨k, hk, rfl⟩
    rw [List.mem_range] at hk
    omega
  · rintro ⟨h2, h3⟩
    exact ⟨(x - a).toNat, by rw [List.mem_range]; omega, by omega⟩

theorem mem_Range_down (a b x : Int) (h : b < a) :
    x ∈ Range a (b + -1) (-1) ↔ b ≤ x ∧ x ≤ a := by
  have h1 : b + -1 < a := by omega
  have hr : Range a (b + -1) (-1) =
      (List.range (b + -1 - a).natAbs).map (fun (k : Nat) => a + (k : Int) * (-1)) := by
    simp [Range, h1]
  rw [hr, List.mem_map]
  constructor
  · rintro ⟨k, hk, rfl⟩
    rw [List.mem_range] at hk
    omega
  · rintro ⟨h2, h3⟩
    exact ⟨(a - x).toNat, by rw [List.mem_range]; omega, by omega⟩

/-- The selection after a range select from anchor `a` to the number `b`. -/
theorem update_TO_LAST_selection (b : Int) (st : State) (j : Index) :
    j ∈ (onItemSelected.update (some b) (some Modifier.TO_LAST) st).selection ↔
      j ∈ st.selection ∨
        ∃ x : Int, j = some x ∧ min (lastOr0 st.lastSelected) b ≤ x ∧
          x ≤ max (lastOr0 st.lastSelected) b := by
  simp only [onItemSelected.update, Option.getD_some, Finset.mem_union, List.mem_toFinset,
    List.mem_map]
  by_cases h : lastOr0 st.lastSelected ≤ b
  · simp only [h, if_true]
    constructor
    · rintro (hj | ⟨x, hx, rfl⟩)
      · exact Or.inl hj
      · rw [mem_Range_up _ _ _ h] at hx
        exact Or.inr ⟨x, rfl, by omega, by omega⟩
    · rintro (hj | ⟨x, rfl, h1, h2⟩)
      · exact Or.inl hj
      · exact Or.inr ⟨x, (mem_Range_up _ _ _ h).2 ⟨by omega, by omega⟩, rfl⟩
  · simp only [h, if_false]
    have h' : b < lastOr0 st.lastSelected := by omega
    constructor
    · rintro (hj | ⟨x, hx, rfl⟩)
      · exact Or.inl hj
      · rw [mem_Range_down _ _ _ h'] at hx
        exact Or.inr ⟨x, rfl, by omega, by omega⟩
    · rintro (hj | ⟨x, rfl, h1, h2⟩)
      · exact Or.inl hj
      · exact Or.inr ⟨x, (mem_Range_down _ _ _ h').2 ⟨by omega, by omega⟩, rfl⟩

theorem mem_dropLast_or_getLast {α : Type} (l : List α) (j : α) (h : j ∈ l) :
    j ∈ l.dropLast ∨ l.getLast? = some j := by
  rcases List.eq_nil_or_concat l with rfl | ⟨l', a, rfl⟩
  · simp at h
  · rw [List.concat_eq_append] at h ⊢
    rw [List.dropLast_concat, List.getLast?_concat]
    rw [List.mem_append, List.mem_singleton] at h
    rcases h with h | h
    · exact Or.inl h
    · exact Or.inr (by rw [h])

theorem selectionChangedFn_fst (props : Props) (state : State) (f : State → State)
    (isTouch : Bool) : (selectionChangedFn props state f isTouch).1 = f state := by
  simp only [selectionChangedFn]
  split <;> rfl

theorem onItemSelected_fst (self : Component) (i : Index) (m : Option Modifier) (t : Bool) :
    (onItemSelected self i m t).1 = onItemSelected.update i m self.state :=
  selectionChangedFn_fst _ _ _ _

/-- One selection step re-establishes the invariant, except for a `SINGLE`
deselection of an index that stays behind in `lastSelected`. -/
theorem update_Inv (i : Index) (m : Option Modifier) (st : State) (h : Inv st)
    (hnum : m = some Modifier.TO_LAST → i ≠ none)
    (hpop : m = some Modifier.SINGLE → i ∈ st.selection → i ∉ st.lastSelected.dropLast) :
    Inv (onItemSelected.update i m st) := by
  intro j hj
  rcases m with _ | m
  · simp only [onItemSelected.update, List.mem_singleton] at hj ⊢
    simp [hj]
  · cases m
    · by_cases hi : i ∈ st.selection
      · have hp := hpop rfl hi
        simp only [onItemSelected.update, hi, not_true_eq_false, if_false] at hj ⊢
        rw [Finset.mem_erase]
        by_cases hl : st.lastSelected.getLast? = some i
        · simp only [hl, if_true] at hj
          refine ⟨?_, h j (List.mem_of_mem_dropLast hj)⟩
          rintro rfl
          exact hp hj
        · simp only [hl, if_false] at hj
          refine ⟨?_, h j hj⟩
          rintro rfl
          rcases mem_dropLast_or_getLast _ _ hj with h1 | h1
          · exact hp h1
          · exact hl h1
      · simp only [onItemSelected.update, hi, not_false_eq_true, if_true, List.mem_append,
          List.mem_singleton] at hj ⊢
        rw [Finset.mem_insert]
        rcases hj with hj | hj
        · exact Or.inr (h j hj)
        · exact Or.inl hj
    · obtain ⟨b, rfl⟩ := Option.ne_none_iff_exists'.1 (hnum rfl)
      rw [update_TO_LAST_selection]
      have hls : (onItemSelected.update (some b) (some Modifier.TO_LAST) st).lastSelected =
          st.lastSelected ++ [some b] := rfl
      rw [hls, List.mem_append, List.mem_singleton] at hj
      rcases hj with hj | rfl
      · exact Or.inl (h j hj)
      · exact Or.inr ⟨b, rfl, min_le_right _ _, le_max_right _ _⟩

theorem toggleSelection_fst (self : Component) (i : Index) (t : Bool) :
    (toggleSelection self i t).1 =
      onItemSelected.update i (some Modifier.SINGLE) self.state :=
  onItemSelected_fst _ _ _ _

theorem clearSelection_Inv (self : Component) (h : Inv self.state) :
    Inv (clearSelection self).1 := by
  simp only [clearSelection, selectionChanged]
  split
  · intro j hj
    simp [State.setState] at hj
  · split
    · intro j hj
      simp [State.setState] at hj
    · exact h

theorem componentWillReceiveProps_Inv (self : Component) (props : Props)
    (h : Inv self.state) (hi : props.items.isSome) :
    ∃ r, componentWillReceiveProps self props = Except.ok r ∧ Inv r.1 := by
  have hn : props.items.isNone = false := by
    cases hp : props.items <;> simp_all
  refine ⟨_, by simp only [componentWillReceiveProps, hn]; rfl, ?_⟩
  intro j hj
  simp only [selectionChanged, List.foldl_append] at hj ⊢
  rcases hs : props.selection with _ | sel
  · simp only [hs, List.foldl_nil] at hj ⊢
    split_ifs at hj ⊢ <;>
      simp_all [State.setState, Inv]
  · simp only [hs] at hj ⊢
    by_cases hne : sel = self.state.selection
    · simp only [hne, ne_eq, not_true_eq_false, if_false, List.foldl_nil] at hj ⊢
      split_ifs at hj ⊢ <;>
        simp_all [State.setState, Inv]
    · simp only [ne_eq, hne, not_false_eq_true, if_true, List.foldl_cons, List.foldl_nil,
        State.setState, Option.getD_some, List.mem_filter, decide_eq_true_eq] at hj ⊢
      exact hj.2

theorem toggleAll_Inv (run : List Index) :
    ∀ self : Component, Inv self.state → deselectsFinal self run → Inv (toggleAll self run) := by
  induction run with
  | nil => intro self h _; exact h
  | cons i rest ih =>
    intro self h hd
    refine ih _ ?_ hd.2
    show Inv (toggleSelection self i true).1
    rw [toggleSelection_fst]
    exact update_Inv i _ _ h (by intro hm; cases hm) (fun _ => hd.1)

/-- C1 (as stated, refuted): a `SINGLE` toggle that deselects an index which is
not the final entry of `lastSelected` leaves it there.  From selection `{1, 2}`
and last-selected `[1, 2]`, which satisfy the invariant, deselecting `1` gives
`{2}` and `[1, 2]`; the same state is reached from the empty state by toggling
`1`, `2`, `1`. -/
theorem invariant_broken_by_deselect :
    Inv (plainList {some 1, some 2} [some 1, some 2]).state ∧
    (onItemSelected (plainList {some 1, some 2} [some 1, some 2]) (some 1)
        (some Modifier.SINGLE) false).1.lastSelected = [some 1, some 2] ∧
    ¬ Inv (onItemSelected (plainList {some 1, some 2} [some 1, some 2]) (some 1)
        (some Modifier.SINGLE) false).1 ∧
    ¬ Inv (toggleAll (plainList ∅ []) [some 1, some 2, some 1]) := by
  decide

/-- C1 (amended): from a state in which every entry of `lastSelected` is in
`selection`, the state produced by `onItemSelected` satisfies the invariant
again for a click without modifier, for `TO_LAST` on a numeric index, and for
`SINGLE` unless it deselects an index that occurs in `lastSelected` before the
final entry; so do the states produced by `clearSelection` and by
`componentWillReceiveProps` (which returns whenever `props.items` is given).
Hence the invariant holds after a run of single toggles in which every
deselected index occurs in `lastSelected` at most as the final entry. -/
theorem invariant_preserved (self : Component) (h : Inv self.state) :
    (∀ (i : Index) (m : Option Modifier) (isTouch : Bool),
      (m = some Modifier.TO_LAST → i ≠ none) →
      (m = some Modifier.SINGLE → i ∈ self.state.selection →
        i ∉ self.state.lastSelected.dropLast) →
      Inv (onItemSelected self i m isTouch).1) ∧
    Inv (clearSelection self).1 ∧
    (∀ props : Props, props.items.isSome →
      ∃ r, componentWillReceiveProps self props = Except.ok r ∧ Inv r.1) ∧
    (∀ run : List Index, deselectsFinal self run → Inv (toggleAll self run)) := by
  refine ⟨?_, clearSelection_Inv self h, ?_, ?_⟩
  · intro i m t hnum hpop
    rw [onItemSelected_fst]
    exact update_Inv i m _ h hnum hpop
  · intro props hi
    exact componentWillReceiveProps_Inv self props h hi
  · intro run hd
    exact toggleAll_Inv run self h hd

/-- Witness for C1: from the empty state, toggling `1`, `2`, `2`, `1` deselects
in reverse order of selection, and the invariant holds at the end. -/
theorem invariant_preserved_witness :
    Inv (plainList ∅ []).state ∧ deselectsFinal (plainList ∅ []) [some 1, some 2, some 2, some 1] ∧
    Inv (toggleAll (plainList ∅ []) [some 1, some 2, some 2, some 1]) :=
  ⟨by decide, by decide,
    (invariant_preserved (plainList ∅ []) (by decide)).2.2.2 _ (by decide)⟩

/-- C2: `onItemSelected(i, SINGLE)` on a state where `i` is not selected adds
`i` to the selection and appends it to `lastSelected`; where `i` is selected
it removes `i` from the selection, pops the final entry of `lastSelected` when
that entry is `i`, and leaves `lastSelected` unchanged otherwise. -/
theorem single_toggle (self : Component) (i : Index) (isTouch : Bool) :
    (i ∉ self.state.selection →
      (onItemSelected self i (some Modifier.SINGLE) isTouch).1.selection =
          insert i self.state.selection ∧
      (onItemSelected self i (some Modifier.SINGLE) isTouch).1.lastSelected =
          self.state.lastSelected ++ [i]) ∧
    (i ∈ self.state.selection →
      (onItemSelected self i (some Modifier.SINGLE) isTouch).1.selection =
          self.state.selection.erase i ∧
      (self.state.lastSelected.getLast? = some i →
        (onItemSelected self i (some Modifier.SINGLE) isTouch).1.lastSelected =
          self.state.lastSelected.dropLast) ∧
      (self.state.lastSelected.getLast? ≠ some i →
        (onItemSelected self i (some Modifier.SINGLE) isTouch).1.lastSelected =
          self.state.lastSelected)) := by
  rw [onItemSelected_fst]
  refine ⟨fun hi => ?_, fun hi => ⟨?_, fun hl => ?_, fun hl => ?_⟩⟩
  · simp [onItemSelected.update, hi]
  · simp [onItemSelected.update, hi]
  · simp [onItemSelected.update, hi, hl]
  · simp [onItemSelected.update, hi, hl]

/-- Witness for C2: in `({1, 2}, [1, 2])` index `2` is selected and is the final
entry, so toggling it leaves `{1}` and pops to `[1]`; index `3` is not selected,
so toggling it gives `{1, 2, 3}` and `[1, 2, 3]`. -/
theorem single_toggle_witness :
    (onItemSelected (plainList {some 1, some 2} [some 1, some 2]) (some 2)
        (some Modifier.SINGLE) true).1.selection = {some 1} ∧
    (onItemSelected (plainList {some 1, some 2} [some 1, some 2]) (some 2)
        (some Modifier.SINGLE) true).1.lastSelected = [some 1] ∧
    (onItemSelected (plainList {some 1, some 2} [some 1, some 2]) (some 3)
        (some Modifier.SINGLE) true).1.lastSelected = [some 1, some 2, some 3] :=
  ⟨((single_toggle (plainList {some 1, some 2} [some 1, some 2]) (some 2) true).2
      (by decide)).1.trans (by decide),
   (((single_toggle (plainList {some 1, some 2} [some 1, some 2]) (some 2) true).2
      (by decide)).2.1 (by decide)).trans (by decide),
   ((single_toggle (plainList {some 1, some 2} [some 1, some 2]) (some 3) true).1
      (by decide)).2.trans (by decide)⟩

theorem lastOr0_eq (ls : List Index) (a : Int)
    (ha : ls.getLast? = some (some a) ∨ (ls = [] ∧ a = 0)) : lastOr0 ls = a := by
  rcases ha with ha | ⟨rfl, rfl⟩
  · simp [lastOr0, ha]
  · rfl

/-- C3: `onItemSelected(b, TO_LAST)` for a number `b` (in particular `b ≥ 0`),
with anchor `a` the final entry of `lastSelected`, or `0` when `lastSelected`
is empty: the new selection is the old one united with every integer from
`min a b` to `max a b` inclusive, whichever of `a ≤ b` and `a > b` holds, and
the new `lastSelected` is the old one with `b` appended. -/
theorem range_select (self : Component) (a b : Int) (isTouch : Bool)
    (ha : self.state.lastSelected.getLast? = some (some a) ∨
      (self.state.lastSelected = [] ∧ a = 0)) :
    (onItemSelected self (some b) (some Modifier.TO_LAST) isTouch).1.selection =
        self.state.selection ∪ (Finset.Icc (min a b) (max a b)).image some ∧
    (onItemSelected self (some b) (some Modifier.TO_LAST) isTouch).1.lastSelected =
        self.state.lastSelected ++ [some b] := by
  rw [onItemSelected_fst]
  refine ⟨?_, rfl⟩
  ext j
  rw [update_TO_LAST_selection, lastOr0_eq _ a ha, Finset.mem_union, Finset.mem_image]
  constructor
  · rintro (h | ⟨x, rfl, h1, h2⟩)
    · exact Or.inl h
    · exact Or.inr ⟨x, Finset.mem_Icc.2 ⟨h1, h2⟩, rfl⟩
  · rintro (h | ⟨x, hx, rfl⟩)
    · exact Or.inl h
    · exact Or.inr ⟨x, rfl, (Finset.mem_Icc.1 hx).1, (Finset.mem_Icc.1 hx).2⟩

/-- Witness for C3: from `({1}, [1])` the anchor is `1`, and extending to `3`
gives `({1, 2, 3}, [1, 3])`; from `({5}, [5])` extending down to `3` gives
`{3, 4, 5}`. -/
theorem range_select_witness :
    (onItemSelected (plainList {some 1} [some 1]) (some 3)
        (some Modifier.TO_LAST) false).1.selection = {some 1, some 2, some 3} ∧
    (onItemSelected (plainList {some 1} [some 1]) (some 3)
        (some Modifier.TO_LAST) false).1.lastSelected = [some 1, some 3] ∧
    (onItemSelected (plainList {some 5} [some 5]) (some 3)
        (some Modifier.TO_LAST) false).1.selection = {some 3, some 4, some 5} :=
  ⟨(range_select (plainList {some 1} [some 1]) 1 3 false (Or.inl rfl)).1.trans (by decide),
   (range_select (plainList {some 1} [some 1]) 1 3 false (Or.inl rfl)).2,
   (range_select (plainList {some 5} [some 5]) 5 3 false (Or.inl rfl)).1.trans (by decide)⟩

theorem mem_update_SINGLE (i j : Index) (st : State) :
    j ∈ (onItemSelected.update i (some Modifier.SINGLE) st).selection ↔
      (j ∈ st.selection ↔ j ≠ i) := by
  by_cases hi : i ∈ st.selection
  · simp only [onItemSelected.update, hi, not_true_eq_false, if_false, Finset.mem_erase]
    by_cases hj : j = i
    · subst hj; simp [hi]
    · simp [hj]
  · simp only [onItemSelected.update, hi, not_false_eq_true, if_true, Finset.mem_insert]
    by_cases hj : j = i
    · subst hj; simp [hi]
    · simp [hj]

theorem mem_toggleAll (run : List Index) (j : Index) :
    ∀ self : Component,
      (j ∈ (toggleAll self run).selection ↔ (j ∈ self.state.selection ↔ Even (run.count j))) := by
  induction run with
  | nil => intro self; simp [toggleAll]
  | cons i rest ih =>
    intro self
    rw [toggleAll, ih, toggleSelection_fst, mem_update_SINGLE, List.count_cons]
    by_cases hj : j = i
    · subst hj
      simp only [ne_eq, not_true_eq_false, iff_false, beq_self_eq_true, if_true,
        Nat.even_add_one]
      tauto
    · have hj' : (i == j) = false := by
        simp only [beq_eq_false_iff_ne, ne_eq]
        exact fun h => hj h.symm
      simp [hj, hj']

/-- C4: from the empty selection, after any finite run of single toggles the
selection is exactly the set of indexes that occur an odd number of times in
the run; and toggling the same index twice in a row restores the selection of
any state. -/
theorem toggles_symmetric :
    (∀ (id : String) (props : Props) (dropTypes : Finset String) (run : List Index)
        (j : Index),
      j ∈ (toggleAll ⟨id, props, ⟨dropTypes, ∅, []⟩⟩ run).selection ↔ Odd (run.count j)) ∧
    (∀ (self : Component) (i : Index) (t t' : Bool),
      (toggleSelection { self with state := (toggleSelection self i t).1 } i t').1.selection =
        self.state.selection) := by
  constructor
  · intro id props d run j
    rw [mem_toggleAll]
    simp [Nat.not_even_iff_odd]
  · intro self i t t'
    ext j
    rw [toggleSelection_fst, mem_update_SINGLE, toggleSelection_fst, mem_update_SINGLE]
    tauto

/-- C5 (the code at the failing input): in a list without a `selection` prop
whose owner listens to `onSelectionChanged`, a plain click on item `1` while
the selection is already `{1}` leaves the state as it was and still invokes
the callback with `{1}`. -/
theorem click_on_selected_notifies :
    onItemSelected (plainList {some 1} [some 1]) (some 1) none false =
      ((plainList {some 1} [some 1]).state, [Call.onSelectionChanged {some 1} false]) := by
  decide

/-! ## Properties of the gesture/drag manager -/

/-- C6: with the pointer at `clientY` over a target of top `offsetTop` and
height `offsetHeight`, `getDropIndex` returns `index` when
`clientY - offsetTop` is less than `offsetHeight / 2` and `index + 1` when it
is greater; the target is the one passed, or `event.currentTarget`. -/
theorem getDropIndex_midpoint (event : Event) (index : Int) (target : Option Node)
    (clientY : ℚ) (hy : event.clientY = some clientY) :
    (clientY - (target.getD event.currentTarget).offsetTop <
        (target.getD event.currentTarget).offsetHeight / 2 →
      getDropIndex event index target = index) ∧
    (clientY - (target.getD event.currentTarget).offsetTop >
        (target.getD event.currentTarget).offsetHeight / 2 →
      getDropIndex event index target = index + 1) := by
  simp only [getDropIndex, hy]
  constructor
  · intro h
    rw [if_neg (not_lt.2 h.le)]
  · intro h
    rw [if_pos h]

/-- Witness for C6: over an item of height `10` at the top, a pointer at `2`
resolves to the item's index `3` and a pointer at `7` to `4`. -/
theorem getDropIndex_midpoint_witness :
    getDropIndex (dragEvent [] 2 3) 3 none = 3 ∧
    getDropIndex (dragEvent [] 7 3) 3 none = 3 + 1 :=
  ⟨(getDropIndex_midpoint (dragEvent [] 2 3) 3 none 2 rfl).1 (by decide!),
   (getDropIndex_midpoint (dragEvent [] 7 3) 3 none 7 rfl).2 (by decide!)⟩

theorem allowedDropIndex_of_move (self : Component) (sl : Slider) (event : Event)
    (index : Int) (target : Option Node) (m : Int) (types : List (Option String))
    (hmove : self.props.onMoveItems = true)
    (htypes : getDataTypes event = DataTypes.array types)
    (hid : some self.id ∈ types) (hm : sl.startIndex = some m) :
    allowedDropIndex self sl event index target =
      Except.ok
        (if some m ∈ self.state.selection then
          if some (getDropIndex event index target) ∈ self.state.selection ∨
              some (getDropIndex event index target - 1) ∈ self.state.selection
          then -1 else getDropIndex event index target
        else
          if getDropIndex event index target = m ∨ getDropIndex event index target = m + 1
          then -1 else getDropIndex event index target) := by
  simp only [allowedDropIndex, getMoveIndex, hmove, htypes, hid, hm, if_true]
  by_cases h1 : some m ∈ self.state.selection
  · simp only [h1, if_true]
    split_ifs <;> simp_all
  · simp only [h1, if_false]
    split_ifs <;> simp_all

/-- Where `getDataTypes` does return an array: for a same-list move
(`onMoveItems` supplied, the array contains the id of the list) with start index
`m`, selection `S` and resolved drop index `d`, `allowedDropIndex` returns `-1`
in the no-op cases and `d` otherwise, the no-op cases being `d = m` or
`d = m + 1` when `m` is not in `S`, and `d` in `S` or `d - 1` in `S` when `m` is
in `S`; so, `d` not being `-1` itself, it returns `-1` exactly in those cases.
This covers every native drag event and the touch events whose target carries
no drag type. -/
theorem allowedDropIndex_same_list (self : Component) (sl : Slider) (event : Event)
    (index : Int) (target : Option Node) (m : Int) (types : List (Option String))
    (hmove : self.props.onMoveItems = true)
    (htypes : getDataTypes event = DataTypes.array types)
    (hid : some self.id ∈ types) (hm : sl.startIndex = some m) :
    (some m ∉ self.state.selection →
      allowedDropIndex self sl event index target =
        Except.ok (if getDropIndex event index target = m ∨
            getDropIndex event index target = m + 1
          then -1 else getDropIndex event index target) ∧
      (getDropIndex event index target ≠ -1 →
        (allowedDropIndex self sl event index target = Except.ok (-1) ↔
          getDropIndex event index target = m ∨
            getDropIndex event index target = m + 1))) ∧
    (some m ∈ self.state.selection →
      allowedDropIndex self sl event index target =
        Except.ok (if some (getDropIndex event index target) ∈ self.state.selection ∨
            some (getDropIndex event index target - 1) ∈ self.state.selection
          then -1 else getDropIndex event index target) ∧
      (getDropIndex event index target ≠ -1 →
        (allowedDropIndex self sl event index target = Except.ok (-1) ↔
          some (getDropIndex event index target) ∈ self.state.selection ∨
            some (getDropIndex event index target - 1) ∈ self.state.selection))) := by
  rw [allowedDropIndex_of_move self sl event index target m types hmove htypes hid hm]
  constructor
  · intro h1
    simp only [h1, if_false, true_and]
    intro hd
    split_ifs with h2
    · simp [h2]
    · simp [h2, hd]
  · intro h1
    simp only [h1, if_true, true_and]
    intro hd
    split_ifs with h2
    · simp [h2]
    · simp [h2, hd]

/-- Instances of the above: a touch drag from item `1` on a list without
`dataType`.  With selection `{1, 2}` a drop at `2` is rejected (`2` is selected)
and a drop at `0` is allowed; with selection `{3}` a drop at `2 = 1 + 1` is
rejected. -/
theorem allowedDropIndex_same_list_witness :
    allowedDropIndex (plainList {some 1, some 2} []) (draggingSlider 1)
        (touchEvent "touch-list-1" (some "touch-list-1") none) 2 (some (itemNode 2)) =
      Except.ok (-1) ∧
    allowedDropIndex (plainList {some 1, some 2} []) (draggingSlider 1)
        (touchEvent "touch-list-1" (some "touch-list-1") none) 0 (some (itemNode 0)) =
      Except.ok 0 ∧
    allowedDropIndex (plainList {some 3} []) (draggingSlider 1)
        (touchEvent "touch-list-1" (some "touch-list-1") none) 2 (some (itemNode 2)) =
      Except.ok (-1) :=
  ⟨((allowedDropIndex_same_list (plainList {some 1, some 2} []) (draggingSlider 1)
      (touchEvent "touch-list-1" (some "touch-list-1") none) 2 (some (itemNode 2)) 1
      [some "touch-list-1"] rfl rfl (by decide) rfl).2 (by decide)).1.trans (by decide),
   ((allowedDropIndex_same_list (plainList {some 1, some 2} []) (draggingSlider 1)
      (touchEvent "touch-list-1" (some "touch-list-1") none) 0 (some (itemNode 0)) 1
      [some "touch-list-1"] rfl rfl (by decide) rfl).2 (by decide)).1.trans (by decide),
   (((allowedDropIndex_same_list (plainList {some 3} []) (draggingSlider 1)
      (touchEvent "touch-list-1" (some "touch-list-1") none) 2 (some (itemNode 2)) 1
      [some "touch-list-1"] rfl rfl (by decide) rfl).1 (by decide)).2 (by decide)).2
      (by decide)⟩

/-- C7 (the code at the failing input): a same-list move by touch on a list
that has both `onMoveItems` and a `dataType`.  The target carries the id of the
list and the drag type, the drag started on item `1`, and the selection is
`{3}`.  Over item `3` the drop index is `3`, which is no no-op, and over item
`1` it is `1`, the start index itself; `allowedDropIndex` returns neither `3`
nor `-1` but raises, because `getDataTypes` hands a number to `getMoveIndex`.
The native drag event carrying the same two types returns `3` and `-1`. -/
theorem same_list_touch_move_raises :
    getDropIndex (touchEvent "touch-list-3" (some "touch-list-3") (some "track")) 3
        (some (itemNode 3)) = 3 ∧
    allowedDropIndex (movableTrackList {some 3}) (draggingSlider 1)
        (touchEvent "touch-list-3" (some "touch-list-3") (some "track")) 3
        (some (itemNode 3)) =
      Except.error "TypeError: dataTypes.indexOf is not a function" ∧
    allowedDropIndex (movableTrackList {some 3}) (draggingSlider 1)
        (touchEvent "touch-list-3" (some "touch-list-3") (some "track")) 1
        (some (itemNode 1)) =
      Except.error "TypeError: dataTypes.indexOf is not a function" ∧
    allowedDropIndex (movableTrackList {some 3}) (draggingSlider 1)
        (dragEvent [("touch-list-3", ""), ("track", "[]")] 2 3) 3 (some (itemNode 3)) =
      Except.ok 3 ∧
    allowedDropIndex (movableTrackList {some 3}) (draggingSlider 1)
        (dragEvent [("touch-list-3", ""), ("track", "[]")] 2 1) 1 (some (itemNode 1)) =
      Except.ok (-1) := by
  decide!

/-- C8 (as stated, refuted): the slider's drop handler does not consult
`allowedDropIndex`.  With selection `{1, 2}`, a drag started on item `1` and a
native drop event on the upper half of item `2` carrying the list's id,
`allowedDropIndex` returns `-1`, yet `drop`, and `TouchListItem.onDrop` through
it, invokes `onMoveItems({1, 2}, 2)`. -/
theorem drop_handler_ignores_rejection :
    allowedDropIndex (plainList {some 1, some 2} [some 1, some 2]) (mouseSlider 1)
        (dragEvent [("touch-list-1", "")] 2 2) 2 none = Except.ok (-1) ∧
    drop (plainList {some 1, some 2} [some 1, some 2]) (mouseSlider 1)
        (dragEvent [("touch-list-1", "")] 2 2) 2 =
      Except.ok [Call.onMoveItems {some 1, some 2} 2] ∧
    TouchListItem.onDrop (plainList {some 1, some 2} [some 1, some 2]) (mouseSlider 1)
        (dragEvent [("touch-list-1", "")] 2 2) 2 =
      Except.ok [Call.clearDropIndicator 2, Call.onMoveItems {some 1, some 2} 2] := by
  decide!

theorem not_mem_onTap (self : Component) (i : Index) (S : Finset Index) (d : Int) :
    Call.onMoveItems S d ∉ onTap self i := by
  unfold onTap
  split <;> simp

theorem not_mem_toggleSelection (self : Component) (i : Index) (t : Bool)
    (S : Finset Index) (d : Int) :
    Call.onMoveItems S d ∉ (toggleSelection self i t).2 := by
  simp only [toggleSelection, onItemSelected, selectionChangedFn]
  split <;> simp

/-- C8 (amended): when `allowedDropIndex` returns `-1` for the item under the
pointer, `touchEnd` returns and has not invoked `onMoveItems`, and `dragOver`
returns `-1` without preventing the default action of the event. -/
theorem touchEnd_rejected_drop (self : Component) (sl : Slider)
    (document : Position → Element) (event : Event) (pos : Position) (index : Int)
    (hpos : sl.latestPosition = some pos)
    (hidx : getIndex self (document pos) = some index)
    (hrej : allowedDropIndex self sl event index (document pos).head? = Except.ok (-1)) :
    (∃ r, touchEnd self sl document event = Except.ok r ∧
      ∀ (S : Finset Index) (d : Int), Call.onMoveItems S d ∉ r.2.2) ∧
    dragOver self sl event index (document pos).head? = Except.ok (-1, []) := by
  constructor
  · simp only [touchEnd, hpos, hidx, hrej]
    by_cases htap : (!sl.isHolding && decide (sl.startPosition = some pos)) = true
    · simp only [htap, if_true]
      by_cases hz : hasClass (document pos) "tap-zone" = true
      · simp only [hz, if_true]
        refine ⟨_, rfl, ?_⟩
        intro S d
        simp [not_mem_onTap]
      · simp only [hz]
        refine ⟨_, rfl, ?_⟩
        intro S d
        simp [not_mem_toggleSelection]
    · simp only [htap]
      by_cases hs : self.state.selection.card ≠ 0
      · rw [if_neg (by decide), if_pos hs, if_neg (by decide)]
        refine ⟨_, rfl, ?_⟩
        intro S d
        simp
      · rw [if_neg (by decide), if_neg hs]
        refine ⟨_, rfl, ?_⟩
        intro S d
        simp
  · simp [dragOver, hrej]

/-- Witness for C8: selection `{1, 2}`, a touch drag started on item `1` (which
is selected) and released over item `2`, so that the resolved drop index is
`2`: `touchEnd` returns without invoking `onMoveItems`. -/
theorem touchEnd_rejected_drop_witness :
    (∃ r, touchEnd (plainList {some 1, some 2} [some 1, some 2]) (draggingSlider 1)
        (pageOver "touch-list-1" 2)
        (touchEvent "touch-list-1" (some "touch-list-1") none) = Except.ok r ∧
      ∀ (S : Finset Index) (d : Int), Call.onMoveItems S d ∉ r.2.2) :=
  (touchEnd_rejected_drop (plainList {some 1, some 2} [some 1, some 2]) (draggingSlider 1)
    (pageOver "touch-list-1" 2) (touchEvent "touch-list-1" (some "touch-list-1") none)
    { ref := 1, x := 5, y := 25, time := 400 } 2 rfl (by decide) (by decide)).1

/-- C9 (the code at the failing input): a list that declares the drop type
`"track"` and does not move its own items receives a touch event whose target
carries the drag type `"track"`.  `getDataTypes` returns the number `2`,
`getMoveIndex` returns `null`, no drop type is found in a number, and
`allowedDropIndex` returns `-1`; the native drag event carrying `"track"` is
allowed at the same place. -/
theorem touch_drop_of_declared_type_rejected :
    getDataTypes (touchEvent "touch-list-2" none (some "track")) = DataTypes.number 2 ∧
    getMoveIndex (trackList {some 0}) (draggingSlider 0)
        (getDataTypes (touchEvent "touch-list-2" none (some "track"))) = Except.ok none ∧
    allowedDropIndex (trackList {some 0}) (draggingSlider 0)
        (touchEvent "touch-list-2" none (some "track")) 2 (some (itemNode 2)) =
      Except.ok (-1) ∧
    allowedDropIndex (trackList {some 0}) (draggingSlider 0)
        (dragEvent [("track", "[]")] 2 2) 2 (some (itemNode 2)) = Except.ok 2 := by
  decide!

/-- C10 (the code at the failing input): on a list whose items may be moved and
are exported as `"track"`, the touch event whose target carries the list id and
the drag type makes `getDataTypes` return the number `2` instead of the two
type strings, and `allowedDropIndex` raises; the native drag event with the
same two types, index, selection and start index returns the drop index `3`. -/
theorem touch_types_are_a_number :
    getDataTypes (touchEvent "touch-list-3" (some "touch-list-3") (some "track")) =
      DataTypes.number 2 ∧
    getDataTypes (dragEvent [("touch-list-3", ""), ("track", "[]")] 2 3) =
      DataTypes.array [some "touch-list-3", some "track"] ∧
    allowedDropIndex (movableTrackList {some 1}) (draggingSlider 1)
        (touchEvent "touch-list-3" (some "touch-list-3") (some "track")) 3
        (some (itemNode 3)) =
      Except.error "TypeError: dataTypes.indexOf is not a function" ∧
    allowedDropIndex (movableTrackList {some 1}) (draggingSlider 1)
        (dragEvent [("touch-list-3", ""), ("track", "[]")] 2 3) 3 (some (itemNode 3)) =
      Except.ok 3 := by
  decide!

/-! ## Properties of the long press and of tapping outside the items -/

/-- C11 (the code at the failing input): a finger put down and lifted, without
movement, over the element of the list itself resolves to no item
(`getIndex` returns `null`), and `touchEnd` still toggles: with selection `{1}`
the selection becomes `{null, 1}` with last-selected `[1, null]` and
`onSelectionChanged` is invoked; over a tap zone outside any item `onTap(null)`
is invoked. -/
theorem tap_outside_items_toggles_null :
    getIndex (plainList {some 1} [some 1])
        (pageOverList "touch-list-1" { ref := 1, x := 5, y := 15, time := 0 }) = none ∧
    (tap (plainList {some 1} [some 1]) idleSlider (pageOverList "touch-list-1")
        (fingerDown "touch-list-1")).map
        (fun r => (r.1.selection, r.1.lastSelected, r.2.2)) =
      Except.ok ({none, some 1}, [some 1, none],
        [Call.preventDefault, Call.onSelectionChanged {none, some 1} true]) ∧
    (tap (tappableList {some 1} [some 1]) idleSlider (pageOverTapZone "touch-list-1")
        (fingerDown "touch-list-1")).map
        (fun r => (r.1.selection, r.1.lastSelected, r.2.2)) =
      Except.ok ({some 1}, [some 1], [Call.onTap none]) := by
  decide

/-- What `touchStart` leaves in the slider for a single touch point: both
positions are the new position object, and the timer has captured the index
under the finger and whether it was selected. -/
theorem touchStart_armed (self : Component) (sl : Slider) (document : Position → Element)
    (event : Event) (sl1 : Slider) (event1 : Event)
    (hstart : touchStart self sl document event = Except.ok (sl1, event1))
    (hone : event.touches.length = 1) :
    ∃ pos : Position,
      sl1.startPosition = some pos ∧ sl1.latestPosition = some pos ∧
      sl1.isHolding = false ∧
      sl1.isTouchDrag = hasClass (document pos) "drag-handle" ∧
      sl1.holdTimer = some ((getIndex self (document pos) : Index),
        decide ((getIndex self (document pos) : Index) ∈ self.state.selection)) := by
  obtain ⟨touch, ht⟩ : ∃ touch, event.touches = [touch] := List.length_eq_one.1 hone
  simp only [touchStart, ht, List.length_singleton, gt_iff_lt, lt_self_iff_false, if_false,
    List.head?_cons] at hstart
  split at hstart
  · cases hstart
  · rename_i ev2 _
    simp only [Except.ok.injEq, Prod.mk.injEq] at hstart
    obtain ⟨h1, -⟩ := hstart
    subst h1
    exact ⟨_, rfl, rfl, rfl, rfl, rfl⟩

/-- C12 (as stated, refuted): the timer does nothing but set `isHolding` when
the touch started on a drag handle.  With selection `{1}`, a finger held without
movement on the drag handle of the selected item `1`: after the timer has fired
the selection is still `{1}`, and `isHolding` and `isTouchDrag` are both
true. -/
theorem longPress_on_handle_keeps_selection :
    touchStart (plainList {some 1} [some 1]) idleSlider (pageOverHandle "touch-list-1" 1)
        (fingerDown "touch-list-1") =
      Except.ok (pressedSlider (some 1) true true,
        { fingerDown "touch-list-1" with touchlistId := some "touch-list-1" }) ∧
    holdTimerFired (plainList {some 1} [some 1]) (pressedSlider (some 1) true true) =
      Except.ok ((plainList {some 1} [some 1]).state,
        { pressedSlider (some 1) true true with holdTimer := none, isHolding := true }, []) ∧
    ({ pressedSlider (some 1) true true with holdTimer := none, isHolding := true } :
        Slider).isTouchDrag = true := by
  decide

/-- C12 (amended): a single finger is put down, away from any drag handle, on
an item that is selected (so the selection is not empty), and the hold timer
fires with no movement since.  Then the timer callback returns, `selection`
and `lastSelected` are empty, `isTouchDrag` and `isHolding` are false, and
the `touchEnd` that follows returns at once: no callback, state and slider
unchanged. -/
theorem longPress_on_selected_clears (self : Component) (sl : Slider)
    (document : Position → Element) (event : Event) (sl1 : Slider) (event1 : Event)
    (pos : Position)
    (hstart : touchStart self sl document event = Except.ok (sl1, event1))
    (hone : event.touches.length = 1)
    (hpos : sl1.startPosition = some pos)
    (hsel : (getIndex self (document pos) : Index) ∈ self.state.selection)
    (hhandle : hasClass (document pos) "drag-handle" = false) :
    ∃ (st2 : State) (sl2 : Slider) (calls : List Call),
      holdTimerFired self sl1 = Except.ok (st2, sl2, calls) ∧
      st2.selection = ∅ ∧ st2.lastSelected = [] ∧
      sl2.isTouchDrag = false ∧ sl2.isHolding = false ∧
      ∀ ev : Event, touchEnd { self with state := st2 } sl2 document ev =
        Except.ok (st2, sl2, []) := by
  obtain ⟨pos', h1, h2, -, h4, h5⟩ := touchStart_armed self sl document event sl1 event1 hstart hone
  rw [hpos] at h1
  cases h1
  rw [hhandle] at h4
  have hne : self.state.selection ≠ ∅ := Finset.ne_empty_of_mem hsel
  have hcard : self.state.selection.card ≠ 0 := fun h => hne (Finset.card_eq_zero.1 h)
  have hf : holdTimerFired self sl1 = Except.ok ((clearSelection self).1,
      { sl1 with holdTimer := none, isHolding := false, latestPosition := none },
      (clearSelection self).2) := by
    simp only [holdTimerFired, h5, hpos, h2, h4, hsel, hcard, decide_True, Bool.not_false,
      Bool.and_self, if_true, ne_eq, not_false_eq_true]
  refine ⟨_, _, _, hf, ?_, ?_, h4, rfl, ?_⟩
  · simp [clearSelection, selectionChanged, hne.symm, State.setState]
  · simp [clearSelection, selectionChanged, hne.symm, State.setState]
  · intro ev
    simp [touchEnd]

/-- Witness for C12: a finger held on the selected item `1` of a list with
selection `{1}`. -/
theorem longPress_on_selected_clears_witness :
    ∃ (st2 : State) (sl2 : Slider) (calls : List Call),
      holdTimerFired (plainList {some 1} [some 1]) (pressedSlider (some 1) true false) =
        Except.ok (st2, sl2, calls) ∧
      st2.selection = ∅ ∧ st2.lastSelected = [] ∧
      sl2.isTouchDrag = false ∧ sl2.isHolding = false ∧
      ∀ ev : Event,
        touchEnd { plainList {some 1} [some 1] with state := st2 } sl2
          (pageOver "touch-list-1" 1) ev = Except.ok (st2, sl2, []) :=
  longPress_on_selected_clears (plainList {some 1} [some 1]) idleSlider
    (pageOver "touch-list-1" 1) (fingerDown "touch-list-1") (pressedSlider (some 1) true false)
    { fingerDown "touch-list-1" with touchlistId := some "touch-list-1" }
    { ref := 1, x := 5, y := 15, time := 0 } (by decide) rfl rfl (by decide) (by decide)

theorem onLongTouch_result (self : Component) (index : Index) (items : List Item)
    (hitems : self.props.items = some items) :
    ∃ r : State × List Call, onLongTouch self index = Except.ok r ∧
      ((∃ callback, self.props.onLongTouch = some callback ∧
          callback (itemsGet items index) index = false) →
        r = (self.state, [])) ∧
      ((self.props.onLongTouch = none ∨
          ∃ callback, self.props.onLongTouch = some callback ∧
            callback (itemsGet items index) index = true) →
        r = toggleSelection self index true) := by
  unfold onLongTouch
  rcases hcb : self.props.onLongTouch with _ | callback
  · exact ⟨_, rfl, by simp, fun _ => rfl⟩
  · simp only [hitems]
    by_cases hc : callback (itemsGet items index) index = true
    · simp only [hc, if_true]
      refine ⟨_, rfl, ?_, fun _ => rfl⟩
      rintro ⟨cb, h1, h2⟩
      cases h1
      simp [hc] at h2
    · simp only [hc]
      refine ⟨_, rfl, fun _ => rfl, ?_⟩
      rintro (h | ⟨cb, h1, h2⟩)
      · cases h
      · cases h1
        exact absurd h2 hc

/-- C13 (as stated, refuted): without an `onLongTouch` callback the long press
toggles the item.  On a list with empty selection and no such callback, a finger
held on item `1`: after the timer has fired the selection is `{1}`,
`lastSelected` is `[1]`, and the owner is notified of a touch-originated
change. -/
theorem longPress_without_callback_toggles :
    (plainList ∅ []).props.onLongTouch.isNone = true ∧
    touchStart (plainList ∅ []) idleSlider (pageOver "touch-list-1" 1)
        (fingerDown "touch-list-1") =
      Except.ok (pressedSlider (some 1) false false,
        { fingerDown "touch-list-1" with touchlistId := some "touch-list-1" }) ∧
    (holdTimerFired (plainList ∅ []) (pressedSlider (some 1) false false)).map
        (fun r => (r.1.selection, r.1.lastSelected, r.2.1.isTouchDrag, r.2.2)) =
      Except.ok ({some 1}, [some 1], true, [Call.onSelectionChanged {some 1} true]) := by
  decide

/-- C13 (amended): a single finger is put down on an item that is not selected
(as when the selection is empty), on a list given its `items`, and the hold
timer fires with no movement since.  When the touch did not start on a drag
handle, the timer callback returns with `isTouchDrag` true; the state is
unchanged and nothing is notified when the `onLongTouch` callback returns
`false`; when it returns `true`, and also when no `onLongTouch` callback is
supplied, the outcome is that of `toggleSelection(index, true)` for the touched
index.  When the touch started on a drag handle, `isTouchDrag` is true already
and the timer changes neither the state nor invokes anything. -/
theorem longPress_on_unselected (self : Component) (sl : Slider)
    (document : Position → Element) (event : Event) (sl1 : Slider) (event1 : Event)
    (pos : Position) (items : List Item)
    (hstart : touchStart self sl document event = Except.ok (sl1, event1))
    (hone : event.touches.length = 1)
    (hpos : sl1.startPosition = some pos)
    (hnsel : (getIndex self (document pos) : Index) ∉ self.state.selection)
    (hitems : self.props.items = some items) :
    (hasClass (document pos) "drag-handle" = false →
      ∃ (st2 : State) (sl2 : Slider) (calls : List Call),
        holdTimerFired self sl1 = Except.ok (st2, sl2, calls) ∧
        sl2.isTouchDrag = true ∧
        ((∃ callback, self.props.onLongTouch = some callback ∧
            callback (itemsGet items (getIndex self (document pos)))
              (getIndex self (document pos)) = false) →
          st2 = self.state ∧ calls = []) ∧
        ((self.props.onLongTouch = none ∨
            ∃ callback, self.props.onLongTouch = some callback ∧
              callback (itemsGet items (getIndex self (document pos)))
                (getIndex self (document pos)) = true) →
          (st2, calls) = toggleSelection self (getIndex self (document pos)) true)) ∧
    (hasClass (document pos) "drag-handle" = true →
      ∃ sl2 : Slider, holdTimerFired self sl1 = Except.ok (self.state, sl2, []) ∧
        sl2.isTouchDrag = true) := by
  obtain ⟨pos', h1, h2, -, h4, h5⟩ := touchStart_armed self sl document event sl1 event1 hstart hone
  rw [hpos] at h1
  cases h1
  constructor
  · intro hhandle
    rw [hhandle] at h4
    obtain ⟨r, hr, hfalse, htrue⟩ := onLongTouch_result self (getIndex self (document pos)) items hitems
    have hf : holdTimerFired self sl1 = Except.ok (r.1,
        { sl1 with holdTimer := none, isHolding := true, isTouchDrag := true }, r.2) := by
      simp only [holdTimerFired, h5, hpos, h2, h4, hnsel, hr, decide_True, decide_False,
        Bool.not_false, Bool.and_self, Bool.false_and, if_true, if_false, Bool.false_eq_true]
    refine ⟨_, _, _, hf, rfl, ?_, ?_⟩
    · intro h
      have := hfalse h
      rw [this]
      exact ⟨rfl, rfl⟩
    · intro h
      exact htrue h
  · intro hhandle
    rw [hhandle] at h4
    refine ⟨{ sl1 with holdTimer := none, isHolding := true }, ?_, h4⟩
    simp only [holdTimerFired, h5, hpos, h2, h4, decide_True, Bool.not_true, Bool.and_false,
      Bool.false_eq_true, if_false]

/-- Witness for C13: a finger held on the unselected item `1` of a list whose
`onLongTouch` callback answers `true`: drag mode is entered and item `1` is
toggled as by `toggleSelection(1, true)`. -/
theorem longPress_on_unselected_witness :
    ∃ (st2 : State) (sl2 : Slider) (calls : List Call),
      holdTimerFired (answeringList true {some 2} [some 2])
          (pressedSlider (some 1) false false) = Except.ok (st2, sl2, calls) ∧
      sl2.isTouchDrag = true ∧
      (st2, calls) = toggleSelection (answeringList true {some 2} [some 2]) (some 1) true :=
  match (longPress_on_unselected (answeringList true {some 2} [some 2]) idleSlider
    (pageOver "touch-list-1" 1) (fingerDown "touch-list-1")
    (pressedSlider (some 1) false false)
    { fingerDown "touch-list-1" with touchlistId := some "touch-list-1" }
    { ref := 1, x := 5, y := 15, time := 0 } ["A", "B", "C", "D"]
    (by decide) rfl rfl (by decide) rfl).1 (by decide) with
  | ⟨st2, sl2, calls, h1, h2, _, h4⟩ =>
    ⟨st2, sl2, calls, h1, h2, h4 (Or.inr ⟨fun _ _ => true, rfl, rfl⟩)⟩

/-! ## Properties of `componentWillReceiveProps` -/

/-- C14 (as stated, refuted): the items are replaced by a reordering.  With
state `({1, 2}, [1, 2])` and an incoming `selection` prop `{2}` the result is
`({2}, [2])`, not the empty state; and with state `({1}, [1])` while the owner
holds the empty selection, the state is emptied without `onSelectionChanged`
being invoked. -/
theorem items_change_keeps_supplied_selection :
    (componentWillReceiveProps (controlledList {some 1, some 2} {some 1, some 2}
        [some 1, some 2]) (reorderedProps (some {some 2}))).map
        (fun r => (r.1.selection, r.1.lastSelected, r.2)) =
      Except.ok ({some 2}, [some 2], [Call.onSelectionChanged ∅ false]) ∧
    (componentWillReceiveProps (controlledList ∅ {some 1} [some 1])
        (reorderedProps (some ∅))).map
        (fun r => (r.1.selection, r.1.lastSelected, r.2)) =
      Except.ok (∅, [], []) := by
  decide

/-- C14 (amended): `componentWillReceiveProps` with incoming `items` returns.
When the incoming items are not value-equal to the current ones: the resulting
`selection` and `lastSelected` are both empty if the incoming props carry no
`selection` or one equal to the selection held; with a different incoming
`selection` the result is that selection and the entries of the prior
`lastSelected` that it contains; and `onSelectionChanged` is invoked, with the
empty selection and `isTouch = false`, exactly when the prior selection was
non-empty, the callback is supplied in the current props and the `selection`
prop in force is not the empty set.  When the incoming items are value-equal
nothing is reset: no callback is invoked and the state changes only by taking
over a different incoming `selection`. -/
theorem items_change_resets (self : Component) (props : Props) (items : List Item)
    (hitems : props.items = some items) :
    ∃ r : State × List Call, componentWillReceiveProps self props = Except.ok r ∧
      ((props.selection = none ∨ props.selection = some self.state.selection) →
        (self.props.items ≠ some items → r.1.selection = ∅ ∧ r.1.lastSelected = []) ∧
        (self.props.items = some items →
          r.1.selection = self.state.selection ∧
          r.1.lastSelected = self.state.lastSelected)) ∧
      (∀ sel, props.selection = some sel → sel ≠ self.state.selection →
        r.1.selection = sel ∧
        r.1.lastSelected = self.state.lastSelected.filter (fun index => index ∈ sel)) ∧
      (self.props.items ≠ some items →
        (self.state.selection ≠ ∅ ∧ self.props.onSelectionChanged = true ∧
            self.props.selection ≠ some ∅ →
          r.2 = [Call.onSelectionChanged ∅ false]) ∧
        (¬ (self.state.selection ≠ ∅ ∧ self.props.onSelectionChanged = true ∧
            self.props.selection ≠ some ∅) → r.2 = [])) ∧
      (self.props.items = some items → r.2 = []) := by
  have hn : props.items.isNone = false := by simp [hitems]
  refine ⟨_, by simp only [componentWillReceiveProps, hn]; rfl, ?_, ?_, ?_, ?_⟩
  · intro hsel
    have hu3 : (match props.selection with
        | some sel =>
          if sel ≠ self.state.selection then
            [({ selection := some sel
                lastSelected := some (self.state.lastSelected.filter (fun index => index ∈ sel)) } : Patch)]
          else []
        | none => []) = [] := by
      rcases hsel with h | h <;> simp [h]
    simp only [hu3, List.append_nil, List.foldl_append]
    constructor
    · intro hne
      have hc : self.props.items.isNone = true ∨ self.props.items ≠ props.items := by
        right; rw [hitems]; exact hne
      simp only [hc, if_true, selectionChanged]
      split_ifs <;> simp_all [State.setState]
    · intro heq
      have hc : ¬ (self.props.items.isNone = true ∨ self.props.items ≠ props.items) := by
        rw [hitems, heq]; simp
      simp only [hc, if_false]
      split_ifs <;> simp [State.setState]
  · intro sel hs hne
    simp only [hs, ne_eq, hne, not_false_eq_true, if_true, List.foldl_append, List.foldl_cons,
      List.foldl_nil, State.setState, Option.getD_some, and_self]
  · intro hne
    have hc : self.props.items.isNone = true ∨ self.props.items ≠ props.items := by
      right; rw [hitems]; exact hne
    simp only [hc, if_true, selectionChanged]
    constructor
    · rintro ⟨h1, h2, h3⟩
      have h1' : ¬ (∅ = self.state.selection) := fun h => h1 h.symm
      have h3' : ¬ (some ∅ = self.props.selection) := fun h => h3 h.symm
      simp [h1', h2, h3']
    · intro h
      by_cases h1 : ∅ = self.state.selection
      · simp only [ne_eq, h1, not_true_eq_false, if_false]
        split_ifs <;> rfl
      · simp only [ne_eq, h1, not_false_eq_true, if_true]
        have h1' : self.state.selection ≠ ∅ := fun h' => h1 h'.symm
        have : ¬ (self.props.onSelectionChanged = true ∧ self.props.selection ≠ some ∅) :=
          fun h' => h ⟨h1', h'⟩
        by_cases h2 : self.props.onSelectionChanged = true
        · have h3 : self.props.selection = some ∅ := by
            by_contra h3
            exact this ⟨h2, h3⟩
          simp [h2, h3]
        · simp [h2]
  · intro heq
    have hc : ¬ (self.props.items.isNone = true ∨ self.props.items ≠ props.items) := by
      rw [hitems, heq]; simp
    simp only [hc, if_false]

/-- Witness for C14: an uncontrolled list holding `({1}, [1])` receives
reordered items: the state is emptied and the owner is notified with the empty
selection and `isTouch = false`. -/
theorem items_change_resets_witness :
    ∃ r : State × List Call,
      componentWillReceiveProps (plainList {some 1} [some 1]) (reorderedProps none) =
        Except.ok r ∧
      r.1.selection = ∅ ∧ r.1.lastSelected = [] ∧
      r.2 = [Call.onSelectionChanged ∅ false] :=
  match items_change_resets (plainList {some 1} [some 1]) (reorderedProps none)
    ["B", "A", "C", "D"] rfl with
  | ⟨r, h, h1, _, h3, _⟩ =>
    ⟨r, h, ((h1 (Or.inl rfl)).1 (by decide)).1, ((h1 (Or.inl rfl)).1 (by decide)).2,
      (h3 (by decide)).1 ⟨by decide, rfl, by decide⟩⟩

end TouchList

namespace Store

/-! ## Properties of the action registry -/

/-- On an object with `Object.prototype` as prototype and no own property
`hasOwnProperty`, and for a name other than `__proto__`, `makeActor` raises
exactly when the name is an own property, and otherwise adds it. -/
theorem makeActor_ordinary (obj : Obj) (s : String)
    (hshadow : "hasOwnProperty" ∉ obj.own) (hproto : obj.protoIsActor = false)
    (hs : s ≠ "__proto__") :
    (s ∈ obj.own → makeActor (some obj) (Name.string s) =
      Except.error ("cannot create duplicate action: " ++ s)) ∧
    (s ∉ obj.own → makeActor (some obj) (Name.string s) =
      Except.ok ({ key := s }, some { obj with own := insert s obj.own })) := by
  constructor
  · intro h
    simp [makeActor, Obj.hasOwnProperty, hshadow, h]
  · intro h
    simp [makeActor, Obj.hasOwnProperty, Obj.assign, hshadow, hproto, hs, h]

/-- C15 (the code at the failing inputs): `allActions` is a plain object.
Registering the name `hasOwnProperty` succeeds and from then on
`allActions.hasOwnProperty` is that actor: `makeActor("play")` raises
"duplicate" although `play` is not registered.  Registering `__proto__`
succeeds and creates no own property: registering `__proto__` a second time
succeeds again instead of raising. -/
theorem special_names_escape_registry :
    makeActor (some Obj.empty) (Name.string "hasOwnProperty") =
      Except.ok ({ key := "hasOwnProperty" },
        some { own := {"hasOwnProperty"}, protoIsActor := false }) ∧
    "play" ∉ ({"hasOwnProperty"} : Finset String) ∧
    makeActor (some { own := {"hasOwnProperty"}, protoIsActor := false })
        (Name.string "play") =
      Except.error "cannot create duplicate action: play" ∧
    makeActor (some Obj.empty) (Name.string "__proto__") =
      Except.ok ({ key := "__proto__" }, some { own := ∅, protoIsActor := true }) ∧
    makeActor (some { own := ∅, protoIsActor := true }) (Name.string "__proto__") =
      Except.ok ({ key := "__proto__" }, some { own := ∅, protoIsActor := true }) := by
  decide

end Store
